import Mathlib

/-!
Shallow embedding of the Ghost Content API client
(`src/universal_mcp_ghost_content/app.py`) and proofs of its
specification's claims.

The client resolves credentials lazily from an integration store, builds
query parameters with the content API key injected, issues HTTP GETs and
maps every failure to a descriptive string result.  External collaborators
(the integration's credential store, the base class headers, the network)
are modelled as explicit inputs; Python exceptions are modelled with
`Except`, Python dictionaries with association lists that follow dict
update semantics (update in place, append when new).
-/

namespace GhostContent

/-- Polymorphic association-list lookup (Python `dict.get`): first binding
of the key, `none` when absent. -/
def alookup {α : Type} : List (String × α) → String → Option α
  | [], _ => none
  | (k, v) :: rest, key => if k = key then some v else alookup rest key

/-- Python dict update `d[k] = v`: replace the binding in place when the
key is present, append it otherwise. -/
def updAssoc {α : Type} : List (String × α) → String → α → List (String × α)
  | [], k, v => [(k, v)]
  | (k0, v0) :: rest, k, v =>
      if k0 = k then (k0, v) :: rest else (k0, v0) :: updAssoc rest k v

/-- Python dict `pop(k, None)`: remove the binding of `k`. -/
def removeKey {α : Type} (l : List (String × α)) (k : String) : List (String × α) :=
  l.filter (fun p => p.1 != k)

/-- Python truthiness of an optional string: `None` and `""` are falsy. -/
def pyTruthy : Option String → Bool
  | none => false
  | some s => s != ""

/-- A Python value that can appear among the client's optional request
parameters: `None`, a boolean, an integer, a string, or a list of strings
(the operations only ever pass `List[str]` lists). -/
inductive PyVal : Type
  | none
  | bool (b : Bool)
  | int (n : Int)
  | str (s : String)
  | list (xs : List String)
  deriving DecidableEq, Repr

/-- The single-quote character, used by Python `repr` of strings. -/
def sq : String := String.singleton (Char.ofNat 39)

/-- Python `str()` of a parameter value (`str(True) = "True"`,
`str(['a']) = "['a']"`). -/
def pyStr : PyVal → String
  | PyVal.none => "None"
  | PyVal.bool b => if b then "True" else "False"
  | PyVal.int n => toString n
  | PyVal.str s => s
  | PyVal.list xs =>
      "[" ++ String.intercalate ", " (xs.map (fun s => sq ++ s ++ sq)) ++ "]"

/-- `_prepare_params` value conversion: booleans become `str(v).lower()`,
lists become `",".join(map(str, v))`, everything else becomes `str(v)`. -/
def normalizeVal : PyVal → String
  | PyVal.bool b => if b then "true" else "false"
  | PyVal.list xs => String.intercalate "," xs
  | v => pyStr v

/-- Minimal JSON values: enough for Ghost error bodies. -/
inductive Json : Type
  | obj (fields : List (String × Json))
  | arr (xs : List Json)
  | str (s : String)

mutual

/-- Python `repr` of a parsed JSON value (used when a dict is interpolated
into an f-string). -/
def pyReprJson : Json → String
  | Json.str s => sq ++ s ++ sq
  | Json.arr xs => "[" ++ pyReprJsonList xs ++ "]"
  | Json.obj fs =>
      String.singleton (Char.ofNat 123) ++ pyReprJsonFields fs ++
        String.singleton (Char.ofNat 125)

/-- Comma-separated `repr`s of the elements of a JSON array. -/
def pyReprJsonList : List Json → String
  | [] => ""
  | [x] => pyReprJson x
  | x :: y :: rest => pyReprJson x ++ ", " ++ pyReprJsonList (y :: rest)

/-- Comma-separated `repr`s of the fields of a JSON object. -/
def pyReprJsonFields : List (String × Json) → String
  | [] => ""
  | [(k, v)] => sq ++ k ++ sq ++ ": " ++ pyReprJson v
  | (k, v) :: y :: rest =>
      sq ++ k ++ sq ++ ": " ++ pyReprJson v ++ ", " ++ pyReprJsonFields (y :: rest)

end

/-- Python `str()` of a JSON value inside an f-string: a string is taken
verbatim, containers are `repr`ed. -/
def pyStrJson : Json → String
  | Json.str s => s
  | j => pyReprJson j

/-- Mutable attributes of a `GhostContentApp` instance. -/
structure AppState : Type where
  api_key : Option String
  api_version : String
  base_url : Option String
  credentials_loaded : Bool

/-- `GhostContentApp.__init__`: key and base URL unset, version defaults to
`"v5.0"`, credentials not yet loaded. -/
def initState : AppState :=
  { api_key := none, api_version := "v5.0", base_url := none,
    credentials_loaded := false }

/-- Behaviour of `integration.get_credentials()`: it can raise
`NotAuthorizedError`, raise some other exception, or return a credential
dictionary (string-valued). -/
inductive CredFetch : Type
  | notAuthorized (msg : String)
  | raises (msg : String)
  | ok (creds : List (String × String))

/-- Exceptions that can arise inside `_execute_get_request`'s `try` block,
mirroring the `except` clauses in order: `httpx.HTTPStatusError` (with
status, parsed JSON body when the body is JSON, and raw text),
`ValueError`, `httpx.RequestError` (carrying the concrete error type name
and message), and any other exception. -/
inductive PyExn : Type
  | httpStatusError (status : Nat) (body : Option Json) (text : String)
  | valueError (msg : String)
  | requestError (typeName msg : String)
  | otherError (typeName msg : String)

/-- Behaviour of the network for one `self.client.get(...)` call: a 2xx
response with a JSON body, a 4xx/5xx response, a transport error
(`httpx.RequestError`), or any other exception (e.g. a 2xx body that is
not JSON). -/
inductive HttpBehavior : Type
  | ok (body : Json)
  | statusErr (status : Nat) (body : Option Json) (text : String)
  | requestErr (typeName msg : String)
  | otherErr (typeName msg : String)

/-- The request handed to `self.client.get`: the client's base URL, the
endpoint path (left-stripped of `/`), the prepared query parameters and
the headers from `_get_headers`. -/
structure HttpRequest : Type where
  base_url : String
  endpoint : String
  params : List (String × String)
  headers : List (String × String)

/-- What an operation returns to its caller: the parsed JSON body or an
error string. -/
inductive GhostResult : Type
  | json (j : Json)
  | str (s : String)

/-- Output of `_execute_get_request`: the value seen by the caller (an
`Except.error` would be an exception escaping to the caller), the
instance state afterwards, the request passed to `client.get` when control
reached it, and whether `integration.get_credentials()` was invoked. -/
structure ExecOut : Type where
  result : Except PyExn GhostResult
  state : AppState
  request : Option HttpRequest
  fetched : Bool

/-- Output of `_load_credentials`: its boolean return value, the updated
state, and whether `integration.get_credentials()` was invoked. -/
structure LoadOut : Type where
  success : Bool
  state : AppState
  fetched : Bool

/-- `_load_credentials` line 67: the base URL built from the admin domain,
with trailing slashes stripped (`admin_domain.rstrip('/')`). -/
def rstripSlash (s : String) : String :=
  String.mk ((s.data.reverse.dropWhile (fun c => c == '/')).reverse)

/-- `f"https://{admin_domain.rstrip('/')}/ghost/api/content/"`. -/
def mkBaseUrl (d : String) : String :=
  "https://" ++ rstripSlash d ++ "/ghost/api/content/"

/-- `GhostContentApp._load_credentials`, translated line by line.  Returns
immediately when already loaded; returns `False` (without caching) when the
integration is missing or `get_credentials()` raises; otherwise records
key/version, sets the base URL when the domain is truthy, marks the
credentials as loaded and succeeds iff both domain and key are truthy. -/
def loadCredentials (integ : Option CredFetch) (s : AppState) : LoadOut :=
  if s.credentials_loaded then ⟨true, s, false⟩
  else
    match integ with
    | none => ⟨false, s, false⟩
    | some (CredFetch.notAuthorized _) => ⟨false, s, true⟩
    | some (CredFetch.raises _) => ⟨false, s, true⟩
    | some (CredFetch.ok creds) =>
        let admin_domain := alookup creds "GHOST_ADMIN_DOMAIN"
        let s1 : AppState :=
          { s with api_key := alookup creds "GHOST_CONTENT_API_KEY",
                   api_version := (alookup creds "GHOST_API_VERSION").getD s.api_version }
        let s2 : AppState :=
          match admin_domain with
          | some d => if d = "" then s1 else { s1 with base_url := some (mkBaseUrl d) }
          | none => s1
        if pyTruthy admin_domain && pyTruthy s1.api_key then
          ⟨true, { s2 with credentials_loaded := true }, true⟩
        else
          ⟨false, { s2 with credentials_loaded := true }, true⟩

/-- `GhostContentApp._get_headers`: base-class headers with any
`Authorization` entry removed and `Accept-Version` set to the instance's
API version. -/
def getHeaders (baseHeaders : List (String × String)) (apiVersion : String) :
    List (String × String) :=
  updAssoc (removeKey baseHeaders "Authorization") "Accept-Version" apiVersion

/-- The `ValueError` message raised by `_prepare_params`. -/
def keyMissingMsg : String :=
  "Ghost Content API key is missing or could not be loaded."

/-- One iteration of `_prepare_params`'s loop: skip `None` values,
otherwise store the normalized string under the key. -/
def ppStep (acc : List (String × String)) (kv : String × PyVal) :
    List (String × String) :=
  match kv.2 with
  | PyVal.none => acc
  | v => updAssoc acc kv.1 (normalizeVal v)

/-- `GhostContentApp._prepare_params`: raises `ValueError` when the API
key is falsy, otherwise starts from `{"key": api_key}` and folds the
custom parameters through `ppStep`. -/
def prepareParams (apiKey : Option String)
    (custom : Option (List (String × PyVal))) :
    Except PyExn (List (String × String)) :=
  match apiKey with
  | none => Except.error (PyExn.valueError keyMissingMsg)
  | some k =>
      if k = "" then Except.error (PyExn.valueError keyMissingMsg)
      else Except.ok (List.foldl ppStep [("key", k)] (custom.getD []))

/-- The suffix appended after `"Error fetching {endpoint}: {status}"` by
the `httpx.HTTPStatusError` handler: Ghost's `errors[]` array formatted as
`message (type: type)` entries when the body is a JSON object holding a
non-empty list of objects; the `repr` of the body when `errors` is absent
or falsy; the raw response text when the body is not JSON or any step of
the extraction raises. -/
def ghostErrorSuffix (body : Option Json) (text : String) : String :=
  match body with
  | none => " - " ++ text
  | some details =>
    match details with
    | Json.obj fields =>
        match alookup fields "errors" with
        | none => " - " ++ pyReprJson details
        | some (Json.arr errs) =>
            match errs with
            | [] => " - " ++ pyReprJson details
            | _ =>
                match errs.mapM (fun e => match e with
                                          | Json.obj fs => some fs
                                          | _ => none) with
                | some objs =>
                    " - Ghost API Errors: " ++
                      String.intercalate "; " (objs.map (fun fs =>
                        pyStrJson ((alookup fs "message").getD (Json.str "Unknown Ghost error")) ++
                          " (type: " ++
                          pyStrJson ((alookup fs "type").getD (Json.str "N/A")) ++ ")"))
                | none => " - " ++ text
        | some (Json.str t) =>
            if t = "" then " - " ++ pyReprJson details else " - " ++ text
        | some (Json.obj efs) =>
            if efs.isEmpty then " - " ++ pyReprJson details else " - " ++ text
    | _ => " - " ++ text

/-- The `except` chain of `_execute_get_request`, in source order:
`httpx.HTTPStatusError`, `ValueError`, `httpx.RequestError`, and the
catch-all `Exception`; each branch produces an error string. -/
def handleExn (endpoint : String) : PyExn → GhostResult
  | PyExn.httpStatusError st body text =>
      GhostResult.str ("Error fetching " ++ endpoint ++ ": " ++ toString st ++
        ghostErrorSuffix body text)
  | PyExn.valueError m => GhostResult.str ("Configuration error: " ++ m)
  | PyExn.requestError tn m =>
      GhostResult.str ("Network or request error fetching " ++ endpoint ++ ": " ++
        tn ++ " - " ++ m)
  | PyExn.otherError tn m =>
      GhostResult.str ("Unexpected error fetching " ++ endpoint ++ ": " ++
        tn ++ " - " ++ m)

/-- `endpoint.lstrip('/')`. -/
def lstripSlash (s : String) : String :=
  String.mk (s.data.dropWhile (fun c => c == '/'))

/-- Error string returned when `_load_credentials` fails. -/
def credFailMsg : String :=
  "Error: Failed to load Ghost Content API credentials. Check integration configuration and logs."

/-- Error string returned when the base URL is not configured. -/
def baseUrlMsg : String :=
  "Error: GhostContentApp base URL is not configured. Check GHOST_ADMIN_DOMAIN credential."

/-- Body of `_execute_get_request` after the lazy-loading step, given the
outcome `load` of that step. -/
def afterLoad (baseHeaders : List (String × String)) (http : HttpBehavior)
    (endpoint : String) (params : Option (List (String × PyVal)))
    (load : LoadOut) : ExecOut :=
  if load.success = false then
    ⟨Except.ok (GhostResult.str credFailMsg), load.state, none, load.fetched⟩
  else if pyTruthy load.state.base_url = false then
    ⟨Except.ok (GhostResult.str baseUrlMsg), load.state, none, load.fetched⟩
  else
    match prepareParams load.state.api_key params with
    | Except.error e =>
        ⟨Except.ok (handleExn endpoint e), load.state, none, load.fetched⟩
    | Except.ok prepared =>
        let req : HttpRequest :=
          ⟨load.state.base_url.getD "", lstripSlash endpoint, prepared,
            getHeaders baseHeaders load.state.api_version⟩
        match http with
        | HttpBehavior.ok body =>
            ⟨Except.ok (GhostResult.json body), load.state, some req, load.fetched⟩
        | HttpBehavior.statusErr st body text =>
            ⟨Except.ok (handleExn endpoint (PyExn.httpStatusError st body text)),
              load.state, some req, load.fetched⟩
        | HttpBehavior.requestErr tn m =>
            ⟨Except.ok (handleExn endpoint (PyExn.requestError tn m)),
              load.state, some req, load.fetched⟩
        | HttpBehavior.otherErr tn m =>
            ⟨Except.ok (handleExn endpoint (PyExn.otherError tn m)),
              load.state, some req, load.fetched⟩

/-- `GhostContentApp._execute_get_request`: trigger lazy credential
loading when not yet loaded, fail early on load failure or missing base
URL, then run the `try` block (prepare parameters, issue the GET, raise
for status, parse JSON) with its `except` chain. -/
def executeGetRequest (integ : Option CredFetch)
    (baseHeaders : List (String × String)) (http : HttpBehavior)
    (endpoint : String) (params : Option (List (String × PyVal)))
    (s : AppState) : ExecOut :=
  afterLoad baseHeaders http endpoint params
    (if s.credentials_loaded then ⟨true, s, false⟩ else loadCredentials integ s)

/-- External collaborators of one operation call: the integration (with
its credential-fetch behaviour), the base-class headers, and the network's
behaviour for the call's GET. -/
structure OpEnv : Type where
  integration : Option CredFetch
  baseHeaders : List (String × String)
  http : HttpBehavior

/-- `None`-defaulted `List[str]` argument as a `PyVal`. -/
def optListVal : Option (List String) → PyVal
  | none => PyVal.none
  | some xs => PyVal.list xs

/-- `None`-defaulted `str` argument as a `PyVal`. -/
def optStrVal : Option String → PyVal
  | none => PyVal.none
  | some s => PyVal.str s

/-- `None`-defaulted `int` argument as a `PyVal`. -/
def optIntVal : Option Int → PyVal
  | none => PyVal.none
  | some n => PyVal.int n

/-- `GhostContentApp.browse_posts`. -/
def browse_posts (env : OpEnv) (inc flds : Option (List String))
    (fltr : Option String) (lim pg : Option Int) (ord : Option String)
    (fmts : Option (List String)) (s : AppState) : ExecOut :=
  executeGetRequest env.integration env.baseHeaders env.http "posts/"
    (some [("include", optListVal inc), ("fields", optListVal flds),
           ("filter", optStrVal fltr), ("limit", optIntVal lim),
           ("page", optIntVal pg), ("order", optStrVal ord),
           ("formats", optListVal fmts)]) s

/-- `GhostContentApp.read_post_by_id`. -/
def read_post_by_id (env : OpEnv) (id : String) (inc flds fmts : Option (List String))
    (s : AppState) : ExecOut :=
  executeGetRequest env.integration env.baseHeaders env.http
    ("posts/" ++ id ++ "/")
    (some [("include", optListVal inc), ("fields", optListVal flds),
           ("formats", optListVal fmts)]) s

/-- `GhostContentApp.read_post_by_slug`. -/
def read_post_by_slug (env : OpEnv) (slug : String) (inc flds fmts : Option (List String))
    (s : AppState) : ExecOut :=
  executeGetRequest env.integration env.baseHeaders env.http
    ("posts/slug/" ++ slug ++ "/")
    (some [("include", optListVal inc), ("fields", optListVal flds),
           ("formats", optListVal fmts)]) s

/-- `GhostContentApp.browse_authors`. -/
def browse_authors (env : OpEnv) (inc flds : Option (List String))
    (fltr : Option String) (lim pg : Option Int) (ord : Option String)
    (s : AppState) : ExecOut :=
  executeGetRequest env.integration env.baseHeaders env.http "authors/"
    (some [("include", optListVal inc), ("fields", optListVal flds),
           ("filter", optStrVal fltr), ("limit", optIntVal lim),
           ("page", optIntVal pg), ("order", optStrVal ord)]) s

/-- `GhostContentApp.read_author_by_id`. -/
def read_author_by_id (env : OpEnv) (id : String) (inc flds : Option (List String))
    (s : AppState) : ExecOut :=
  executeGetRequest env.integration env.baseHeaders env.http
    ("authors/" ++ id ++ "/")
    (some [("include", optListVal inc), ("fields", optListVal flds)]) s

/-- `GhostContentApp.read_author_by_slug`. -/
def read_author_by_slug (env : OpEnv) (slug : String) (inc flds : Option (List String))
    (s : AppState) : ExecOut :=
  executeGetRequest env.integration env.baseHeaders env.http
    ("authors/slug/" ++ slug ++ "/")
    (some [("include", optListVal inc), ("fields", optListVal flds)]) s

/-- `GhostContentApp.browse_tags`. -/
def browse_tags (env : OpEnv) (inc flds : Option (List String))
    (fltr : Option String) (lim pg : Option Int) (ord : Option String)
    (s : AppState) : ExecOut :=
  executeGetRequest env.integration env.baseHeaders env.http "tags/"
    (some [("include", optListVal inc), ("fields", optListVal flds),
           ("filter", optStrVal fltr), ("limit", optIntVal lim),
           ("page", optIntVal pg), ("order", optStrVal ord)]) s

/-- `GhostContentApp.read_tag_by_id`. -/
def read_tag_by_id (env : OpEnv) (id : String) (inc flds : Option (List String))
    (s : AppState) : ExecOut :=
  executeGetRequest env.integration env.baseHeaders env.http
    ("tags/" ++ id ++ "/")
    (some [("include", optListVal inc), ("fields", optListVal flds)]) s

/-- `GhostContentApp.read_tag_by_slug`. -/
def read_tag_by_slug (env : OpEnv) (slug : String) (inc flds : Option (List String))
    (s : AppState) : ExecOut :=
  executeGetRequest env.integration env.baseHeaders env.http
    ("tags/slug/" ++ slug ++ "/")
    (some [("include", optListVal inc), ("fields", optListVal flds)]) s

/-- `GhostContentApp.browse_pages`. -/
def browse_pages (env : OpEnv) (inc flds : Option (List String))
    (fltr : Option String) (lim pg : Option Int) (ord : Option String)
    (fmts : Option (List String)) (s : AppState) : ExecOut :=
  executeGetRequest env.integration env.baseHeaders env.http "pages/"
    (some [("include", optListVal inc), ("fields", optListVal flds),
           ("filter", optStrVal fltr), ("limit", optIntVal lim),
           ("page", optIntVal pg), ("order", optStrVal ord),
           ("formats", optListVal fmts)]) s

/-- `GhostContentApp.read_page_by_id`. -/
def read_page_by_id (env : OpEnv) (id : String) (inc flds fmts : Option (List String))
    (s : AppState) : ExecOut :=
  executeGetRequest env.integration env.baseHeaders env.http
    ("pages/" ++ id ++ "/")
    (some [("include", optListVal inc), ("fields", optListVal flds),
           ("formats", optListVal fmts)]) s

/-- `GhostContentApp.read_page_by_slug`. -/
def read_page_by_slug (env : OpEnv) (slug : String) (inc flds fmts : Option (List String))
    (s : AppState) : ExecOut :=
  executeGetRequest env.integration env.baseHeaders env.http
    ("pages/slug/" ++ slug ++ "/")
    (some [("include", optListVal inc), ("fields", optListVal flds),
           ("formats", optListVal fmts)]) s

/-- `GhostContentApp.browse_tiers`. -/
def browse_tiers (env : OpEnv) (inc flds : Option (List String))
    (fltr : Option String) (lim pg : Option Int) (ord : Option String)
    (s : AppState) : ExecOut :=
  executeGetRequest env.integration env.baseHeaders env.http "tiers/"
    (some [("include", optListVal inc), ("fields", optListVal flds),
           ("filter", optStrVal fltr), ("limit", optIntVal lim),
           ("page", optIntVal pg), ("order", optStrVal ord)]) s

/-- `GhostContentApp.browse_settings` (no parameters). -/
def browse_settings (env : OpEnv) (s : AppState) : ExecOut :=
  executeGetRequest env.integration env.baseHeaders env.http "settings/" none s

/-- A call to one of the client's fourteen tools with its arguments
(`list_tools`). -/
inductive ToolCall : Type
  | browse_posts (inc flds : Option (List String)) (fltr : Option String)
      (lim pg : Option Int) (ord : Option String) (fmts : Option (List String))
  | read_post_by_id (id : String) (inc flds fmts : Option (List String))
  | read_post_by_slug (slug : String) (inc flds fmts : Option (List String))
  | browse_authors (inc flds : Option (List String)) (fltr : Option String)
      (lim pg : Option Int) (ord : Option String)
  | read_author_by_id (id : String) (inc flds : Option (List String))
  | read_author_by_slug (slug : String) (inc flds : Option (List String))
  | browse_tags (inc flds : Option (List String)) (fltr : Option String)
      (lim pg : Option Int) (ord : Option String)
  | read_tag_by_id (id : String) (inc flds : Option (List String))
  | read_tag_by_slug (slug : String) (inc flds : Option (List String))
  | browse_pages (inc flds : Option (List String)) (fltr : Option String)
      (lim pg : Option Int) (ord : Option String) (fmts : Option (List String))
  | read_page_by_id (id : String) (inc flds fmts : Option (List String))
  | read_page_by_slug (slug : String) (inc flds fmts : Option (List String))
  | browse_tiers (inc flds : Option (List String)) (fltr : Option String)
      (lim pg : Option Int) (ord : Option String)
  | browse_settings

/-- Run one tool call against the given environment and instance state. -/
def runTool (t : ToolCall) (env : OpEnv) (s : AppState) : ExecOut :=
  match t with
  | ToolCall.browse_posts inc flds fltr lim pg ord fmts =>
      browse_posts env inc flds fltr lim pg ord fmts s
  | ToolCall.read_post_by_id id inc flds fmts => read_post_by_id env id inc flds fmts s
  | ToolCall.read_post_by_slug slug inc flds fmts =>
      read_post_by_slug env slug inc flds fmts s
  | ToolCall.browse_authors inc flds fltr lim pg ord =>
      browse_authors env inc flds fltr lim pg ord s
  | ToolCall.read_author_by_id id inc flds => read_author_by_id env id inc flds s
  | ToolCall.read_author_by_slug slug inc flds => read_author_by_slug env slug inc flds s
  | ToolCall.browse_tags inc flds fltr lim pg ord =>
      browse_tags env inc flds fltr lim pg ord s
  | ToolCall.read_tag_by_id id inc flds => read_tag_by_id env id inc flds s
  | ToolCall.read_tag_by_slug slug inc flds => read_tag_by_slug env slug inc flds s
  | ToolCall.browse_pages inc flds fltr lim pg ord fmts =>
      browse_pages env inc flds fltr lim pg ord fmts s
  | ToolCall.read_page_by_id id inc flds fmts => read_page_by_id env id inc flds fmts s
  | ToolCall.read_page_by_slug slug inc flds fmts =>
      read_page_by_slug env slug inc flds fmts s
  | ToolCall.browse_tiers inc flds fltr lim pg ord =>
      browse_tiers env inc flds fltr lim pg ord s
  | ToolCall.browse_settings => browse_settings env s

/-- Does the character list `p` start the character list `l`? -/
def hasPre : List Char → List Char → Bool
  | [], _ => true
  | _ :: _, [] => false
  | c :: p, d :: l => c == d && hasPre p l

/-- Does the character list `p` occur contiguously inside `l`? -/
def hasSubChars (p : List Char) : List Char → Bool
  | [] => p.isEmpty
  | c :: t => hasPre p (c :: t) || hasSubChars p t

/-- Substring test: does `pat` occur inside `s`? -/
def containsSub (s pat : String) : Bool := hasSubChars pat.data s.data

/-- Does the string end with a `'/'` character? -/
def lastIsSlash (s : String) : Bool :=
  match s.data.getLast? with
  | some c => c == '/'
  | none => false

/-! ### Concrete fixtures used by witnesses and counterexamples -/

/-- A complete credential mapping. -/
def credsW : List (String × String) :=
  [("GHOST_ADMIN_DOMAIN", "example.com"), ("GHOST_CONTENT_API_KEY", "K")]

/-- An environment whose store is fully configured and whose server
answers 2xx. -/
def envW : OpEnv :=
  ⟨some (CredFetch.ok credsW), [], HttpBehavior.ok (Json.str "ok")⟩

/-- The request `browse_settings` issues against `envW` from a fresh
instance. -/
def reqW : HttpRequest :=
  ⟨"https://example.com/ghost/api/content/", "settings/", [("key", "K")],
   [("Accept-Version", "v5.0")]⟩

/-- A credential mapping missing `GHOST_ADMIN_DOMAIN`. -/
def credsNoDomain : List (String × String) := [("GHOST_CONTENT_API_KEY", "K")]

/-- An environment whose store lacks the admin domain. -/
def envNoDomain : OpEnv :=
  ⟨some (CredFetch.ok credsNoDomain), [], HttpBehavior.ok (Json.str "ok")⟩

/-- The instance state after a first call against `envNoDomain`. -/
def stateNoDomain : AppState :=
  { api_key := some "K", api_version := "v5.0", base_url := none,
    credentials_loaded := true }

/-- A credential mapping missing `GHOST_CONTENT_API_KEY`. -/
def credsNoKey : List (String × String) := [("GHOST_ADMIN_DOMAIN", "example.com")]

/-- An environment whose store lacks the content API key. -/
def envNoKey : OpEnv :=
  ⟨some (CredFetch.ok credsNoKey), [], HttpBehavior.ok (Json.str "ok")⟩

/-- The instance state after a first call against `envNoKey`. -/
def stateNoKey : AppState :=
  { api_key := none, api_version := "v5.0",
    base_url := some "https://example.com/ghost/api/content/",
    credentials_loaded := true }

/-- An environment whose `get_credentials()` raises a generic exception. -/
def envRaises : OpEnv :=
  ⟨some (CredFetch.raises "boom"), [], HttpBehavior.ok (Json.str "ok")⟩

/-- The Ghost 404 error body of the specification's scenario. -/
def c9body : Json :=
  Json.obj [("errors", Json.arr
    [Json.obj [("message", Json.str "Post not found"),
               ("type", Json.str "NotFoundError")]])]

/-- A configured environment whose server answers 404 with `c9body`. -/
def envC9 : OpEnv :=
  ⟨some (CredFetch.ok credsW), [], HttpBehavior.statusErr 404 (some c9body) "raw"⟩

/-! ### Helper lemmas about association lists and parameter preparation -/

theorem alookup_updAssoc_self {α : Type} (l : List (String × α)) (k : String) (v : α) :
    alookup (updAssoc l k v) k = some v := by
  induction l with
  | nil => simp [updAssoc, alookup]
  | cons hd t ih =>
      rcases hd with ⟨k0, v0⟩
      by_cases hk : k0 = k
      · simp [updAssoc, hk, alookup]
      · simp [updAssoc, hk, alookup, ih]

theorem alookup_updAssoc_ne {α : Type} (l : List (String × α)) (k k2 : String) (v : α)
    (h : k2 ≠ k) : alookup (updAssoc l k v) k2 = alookup l k2 := by
  induction l with
  | nil => simp [updAssoc, alookup, Ne.symm h]
  | cons hd t ih =>
      rcases hd with ⟨k0, v0⟩
      by_cases hk : k0 = k
      · subst hk
        simp [updAssoc, alookup, Ne.symm h]
      · simp [updAssoc, hk, alookup, ih]

theorem alookup_removeKey_self {α : Type} (l : List (String × α)) (k : String) :
    alookup (removeKey l k) k = none := by
  induction l with
  | nil => rfl
  | cons hd t ih =>
      rcases hd with ⟨k0, v0⟩
      by_cases hk : k0 = k
      · simpa [removeKey, List.filter_cons, hk] using ih
      · simpa [removeKey, List.filter_cons, hk, alookup] using ih

theorem ppStep_ne_none (acc : List (String × String)) (k : String) (v : PyVal)
    (hv : v ≠ PyVal.none) : ppStep acc (k, v) = updAssoc acc k (normalizeVal v) := by
  cases v with
  | none => exact absurd rfl hv
  | bool b => rfl
  | int n => rfl
  | str s => rfl
  | list xs => rfl

theorem alookup_ppStep_ne (acc : List (String × String)) (k0 k : String) (v0 : PyVal)
    (h : k ≠ k0) : alookup (ppStep acc (k0, v0)) k = alookup acc k := by
  cases v0 with
  | none => rfl
  | bool b => exact alookup_updAssoc_ne acc k0 k _ h
  | int n => exact alookup_updAssoc_ne acc k0 k _ h
  | str s => exact alookup_updAssoc_ne acc k0 k _ h
  | list xs => exact alookup_updAssoc_ne acc k0 k _ h

theorem foldl_ppStep_alookup_notMem (l : List (String × PyVal)) (k : String)
    (hk : k ∉ l.map Prod.fst) :
    ∀ acc, alookup (List.foldl ppStep acc l) k = alookup acc k := by
  induction l with
  | nil => intro acc; rfl
  | cons hd t ih =>
      intro acc
      rcases hd with ⟨k0, v0⟩
      simp only [List.map_cons, List.mem_cons] at hk
      push_neg at hk
      rw [List.foldl_cons, ih hk.2, alookup_ppStep_ne acc k0 k v0 hk.1]

theorem foldl_ppStep_alookup_mem (l : List (String × PyVal)) (k : String) (v : PyVal)
    (hmem : (k, v) ∈ l) (hv : v ≠ PyVal.none) (hnd : (l.map Prod.fst).Nodup) :
    ∀ acc, alookup (List.foldl ppStep acc l) k = some (normalizeVal v) := by
  induction l with
  | nil => cases hmem
  | cons hd t ih =>
      intro acc
      rcases hd with ⟨k0, v0⟩
      simp only [List.map_cons, List.nodup_cons] at hnd
      rcases List.mem_cons.mp hmem with heq | hmem2
      · injection heq with h1 h2
        subst h1; subst h2
        rw [List.foldl_cons, foldl_ppStep_alookup_notMem t k hnd.1,
          ppStep_ne_none acc k v hv, alookup_updAssoc_self]
      · rw [List.foldl_cons]
        exact ih hmem2 hnd.2 (ppStep acc (k0, v0))

theorem foldl_ppStep_alookup_none_mem (l : List (String × PyVal)) (k : String)
    (hmem : (k, PyVal.none) ∈ l) (hnd : (l.map Prod.fst).Nodup) :
    ∀ acc, alookup (List.foldl ppStep acc l) k = alookup acc k := by
  induction l with
  | nil => cases hmem
  | cons hd t ih =>
      intro acc
      rcases hd with ⟨k0, v0⟩
      simp only [List.map_cons, List.nodup_cons] at hnd
      rcases List.mem_cons.mp hmem with heq | hmem2
      · injection heq with h1 h2
        subst h1; subst h2
        rw [List.foldl_cons, foldl_ppStep_alookup_notMem t k hnd.1]
        rfl
      · have hk0 : k ≠ k0 := by
          intro hkk
          exact hnd.1 (hkk ▸ List.mem_map_of_mem Prod.fst hmem2)
        rw [List.foldl_cons, ih hmem2 hnd.2, alookup_ppStep_ne acc k0 k v0 hk0]

theorem prepareParams_falsy (apiKey : Option String)
    (params : Option (List (String × PyVal))) (h : pyTruthy apiKey = false) :
    prepareParams apiKey params = Except.error (PyExn.valueError keyMissingMsg) := by
  cases apiKey with
  | none => rfl
  | some k =>
      simp only [pyTruthy, bne_eq_false_iff_eq] at h
      simp [prepareParams, h]

theorem prepareParams_ok (k : String) (params : Option (List (String × PyVal)))
    (h : k ≠ "") :
    prepareParams (some k) params =
      Except.ok (List.foldl ppStep [("key", k)] (params.getD [])) := by
  simp [prepareParams, h]

theorem prepareParams_ok_inv (apiKey : Option String)
    (params : Option (List (String × PyVal))) (prepared : List (String × String))
    (h : prepareParams apiKey params = Except.ok prepared) :
    ∃ k, apiKey = some k ∧ k ≠ "" ∧
      prepared = List.foldl ppStep [("key", k)] (params.getD []) := by
  cases apiKey with
  | none => cases h
  | some k =>
      by_cases hk : k = ""
      · simp [prepareParams, hk] at h
      · simp [prepareParams, hk] at h
        exact ⟨k, rfl, hk, h.symm⟩

theorem handleExn_str (endpoint : String) (e : PyExn) :
    ∃ m, handleExn endpoint e = GhostResult.str m := by
  cases e <;> exact ⟨_, rfl⟩

/-! ### Structural lemmas about `_execute_get_request` -/

theorem afterLoad_state (baseH : List (String × String)) (http : HttpBehavior)
    (endpoint : String) (params : Option (List (String × PyVal))) (load : LoadOut) :
    (afterLoad baseH http endpoint params load).state = load.state := by
  unfold afterLoad
  by_cases h1 : load.success = false
  · simp [h1]
  · simp only [if_neg h1]
    by_cases h2 : pyTruthy load.state.base_url = false
    · simp [h2]
    · simp only [if_neg h2]
      cases hp : prepareParams load.state.api_key params with
      | error e => rfl
      | ok prepared => cases http <;> rfl

theorem afterLoad_fetched (baseH : List (String × String)) (http : HttpBehavior)
    (endpoint : String) (params : Option (List (String × PyVal))) (load : LoadOut) :
    (afterLoad baseH http endpoint params load).fetched = load.fetched := by
  unfold afterLoad
  by_cases h1 : load.success = false
  · simp [h1]
  · simp only [if_neg h1]
    by_cases h2 : pyTruthy load.state.base_url = false
    · simp [h2]
    · simp only [if_neg h2]
      cases hp : prepareParams load.state.api_key params with
      | error e => rfl
      | ok prepared => cases http <;> rfl

theorem afterLoad_dichotomy (baseH : List (String × String)) (http : HttpBehavior)
    (endpoint : String) (params : Option (List (String × PyVal))) (load : LoadOut) :
    (∃ body, (afterLoad baseH http endpoint params load).result =
        Except.ok (GhostResult.json body) ∧ http = HttpBehavior.ok body) ∨
    (∃ msg, (afterLoad baseH http endpoint params load).result =
        Except.ok (GhostResult.str msg)) := by
  unfold afterLoad
  by_cases h1 : load.success = false
  · simp only [if_pos h1]
    exact Or.inr ⟨_, rfl⟩
  · simp only [if_neg h1]
    by_cases h2 : pyTruthy load.state.base_url = false
    · simp only [if_pos h2]
      exact Or.inr ⟨_, rfl⟩
    · simp only [if_neg h2]
      cases hp : prepareParams load.state.api_key params with
      | error e =>
          obtain ⟨m, hm⟩ := handleExn_str endpoint e
          exact Or.inr ⟨m, by simp [hm]⟩
      | ok prepared =>
          cases http with
          | ok body => exact Or.inl ⟨body, rfl, rfl⟩
          | statusErr st body text =>
              obtain ⟨m, hm⟩ := handleExn_str endpoint (PyExn.httpStatusError st body text)
              exact Or.inr ⟨m, by simp [hm]⟩
          | requestErr tn m2 =>
              obtain ⟨m, hm⟩ := handleExn_str endpoint (PyExn.requestError tn m2)
              exact Or.inr ⟨m, by simp [hm]⟩
          | otherErr tn m2 =>
              obtain ⟨m, hm⟩ := handleExn_str endpoint (PyExn.otherError tn m2)
              exact Or.inr ⟨m, by simp [hm]⟩

theorem afterLoad_request_spec (baseH : List (String × String)) (http : HttpBehavior)
    (endpoint : String) (params : Option (List (String × PyVal))) (load : LoadOut)
    (req : HttpRequest)
    (h : (afterLoad baseH http endpoint params load).request = some req) :
    ∃ prepared, prepareParams load.state.api_key params = Except.ok prepared ∧
      req = ⟨load.state.base_url.getD "", lstripSlash endpoint, prepared,
             getHeaders baseH load.state.api_version⟩ := by
  unfold afterLoad at h
  by_cases h1 : load.success = false
  · simp [h1] at h
  · simp only [if_neg h1] at h
    by_cases h2 : pyTruthy load.state.base_url = false
    · simp [h2] at h
    · simp only [if_neg h2] at h
      cases hp : prepareParams load.state.api_key params with
      | error e => rw [hp] at h; simp at h
      | ok prepared =>
          rw [hp] at h
          refine ⟨prepared, rfl, ?_⟩
          cases http with
          | ok body => exact (Option.some.inj h).symm
          | statusErr st body text => exact (Option.some.inj h).symm
          | requestErr tn m => exact (Option.some.inj h).symm
          | otherErr tn m => exact (Option.some.inj h).symm

theorem executeGetRequest_state (integ : Option CredFetch)
    (baseH : List (String × String)) (http : HttpBehavior) (endpoint : String)
    (params : Option (List (String × PyVal))) (s : AppState) :
    (executeGetRequest integ baseH http endpoint params s).state =
      if s.credentials_loaded then s else (loadCredentials integ s).state := by
  unfold executeGetRequest
  rw [afterLoad_state]
  by_cases h : s.credentials_loaded <;> simp [h]

theorem executeGetRequest_fetched (integ : Option CredFetch)
    (baseH : List (String × String)) (http : HttpBehavior) (endpoint : String)
    (params : Option (List (String × PyVal))) (s : AppState) :
    (executeGetRequest integ baseH http endpoint params s).fetched =
      if s.credentials_loaded then false else (loadCredentials integ s).fetched := by
  unfold executeGetRequest
  rw [afterLoad_fetched]
  by_cases h : s.credentials_loaded <;> simp [h]

theorem loadCredentials_ok_char (creds : List (String × String)) (s : AppState)
    (h : s.credentials_loaded = false) :
    (loadCredentials (some (CredFetch.ok creds)) s).success =
        (pyTruthy (alookup creds "GHOST_ADMIN_DOMAIN") &&
         pyTruthy (alookup creds "GHOST_CONTENT_API_KEY")) ∧
    (loadCredentials (some (CredFetch.ok creds)) s).state =
        { api_key := alookup creds "GHOST_CONTENT_API_KEY",
          api_version := (alookup creds "GHOST_API_VERSION").getD s.api_version,
          base_url := (match alookup creds "GHOST_ADMIN_DOMAIN" with
                       | some d => if d = "" then s.base_url else some (mkBaseUrl d)
                       | none => s.base_url),
          credentials_loaded := true } ∧
    (loadCredentials (some (CredFetch.ok creds)) s).fetched = true := by
  cases hA : alookup creds "GHOST_ADMIN_DOMAIN" with
  | none =>
      cases hK : alookup creds "GHOST_CONTENT_API_KEY" with
      | none => simp [loadCredentials, h, hA, hK, pyTruthy]
      | some k => simp [loadCredentials, h, hA, hK, pyTruthy]
  | some d =>
      by_cases hd : d = ""
      · subst hd
        cases hK : alookup creds "GHOST_CONTENT_API_KEY" with
        | none => simp [loadCredentials, h, hA, hK, pyTruthy]
        | some k => simp [loadCredentials, h, hA, hK, pyTruthy]
      · cases hK : alookup creds "GHOST_CONTENT_API_KEY" with
        | none => simp [loadCredentials, h, hA, hK, hd, pyTruthy]
        | some k =>
            by_cases hk : k = ""
            · simp [loadCredentials, h, hA, hK, hd, hk, pyTruthy]
            · simp [loadCredentials, h, hA, hK, hd, hk, pyTruthy]

theorem exec_key_param (integ : Option CredFetch) (baseH : List (String × String))
    (http : HttpBehavior) (endpoint : String)
    (params : Option (List (String × PyVal))) (s : AppState) (req : HttpRequest)
    (hk : "key" ∉ (params.getD []).map Prod.fst)
    (h : (executeGetRequest integ baseH http endpoint params s).request = some req) :
    ∃ k, (executeGetRequest integ baseH http endpoint params s).state.api_key = some k ∧
      alookup req.params "key" = some k := by
  unfold executeGetRequest at h ⊢
  obtain ⟨prepared, hp, hreq⟩ := afterLoad_request_spec _ _ _ _ _ _ h
  obtain ⟨k, hks, hkne, hprep⟩ := prepareParams_ok_inv _ _ _ hp
  refine ⟨k, ?_, ?_⟩
  · rw [afterLoad_state]
    exact hks
  · rw [hreq]
    dsimp only
    rw [hprep, foldl_ppStep_alookup_notMem _ _ hk]
    simp [alookup]

theorem exec_headers_spec (integ : Option CredFetch) (baseH : List (String × String))
    (http : HttpBehavior) (endpoint : String)
    (params : Option (List (String × PyVal))) (s : AppState) (req : HttpRequest)
    (h : (executeGetRequest integ baseH http endpoint params s).request = some req) :
    alookup req.headers "Accept-Version" =
      some (executeGetRequest integ baseH http endpoint params s).state.api_version ∧
    alookup req.headers "Authorization" = none := by
  unfold executeGetRequest at h ⊢
  obtain ⟨prepared, hp, hreq⟩ := afterLoad_request_spec _ _ _ _ _ _ h
  rw [afterLoad_state, hreq]
  dsimp only
  constructor
  · exact alookup_updAssoc_self _ _ _
  · unfold getHeaders
    rw [alookup_updAssoc_ne _ _ _ _ (by decide)]
    exact alookup_removeKey_self _ _

theorem exec_fresh_api_version (integ : Option CredFetch)
    (baseH : List (String × String)) (http : HttpBehavior) (endpoint : String)
    (params : Option (List (String × PyVal))) (creds : List (String × String))
    (hi : integ = some (CredFetch.ok creds)) :
    (executeGetRequest integ baseH http endpoint params initState).state.api_version =
      (alookup creds "GHOST_API_VERSION").getD "v5.0" := by
  subst hi
  rw [executeGetRequest_state, if_neg (by simp [initState]),
    (loadCredentials_ok_char creds initState rfl).2.1]
  rfl

theorem exec_fresh_creds_fail (integ : Option CredFetch)
    (baseH : List (String × String)) (http : HttpBehavior) (endpoint : String)
    (params : Option (List (String × PyVal))) (creds : List (String × String))
    (hi : integ = some (CredFetch.ok creds))
    (hmiss : (pyTruthy (alookup creds "GHOST_ADMIN_DOMAIN") &&
              pyTruthy (alookup creds "GHOST_CONTENT_API_KEY")) = false) :
    (executeGetRequest integ baseH http endpoint params initState).result =
      Except.ok (GhostResult.str credFailMsg) := by
  subst hi
  unfold executeGetRequest
  rw [if_neg (by simp [initState])]
  unfold afterLoad
  rw [if_pos (by rw [(loadCredentials_ok_char creds initState rfl).1]; exact hmiss)]

theorem exec_fresh_state_after (integ : Option CredFetch)
    (baseH : List (String × String)) (http : HttpBehavior) (endpoint : String)
    (params : Option (List (String × PyVal))) (creds : List (String × String))
    (hi : integ = some (CredFetch.ok creds)) :
    (executeGetRequest integ baseH http endpoint params initState).state =
      { api_key := alookup creds "GHOST_CONTENT_API_KEY",
        api_version := (alookup creds "GHOST_API_VERSION").getD "v5.0",
        base_url := (match alookup creds "GHOST_ADMIN_DOMAIN" with
                     | some d => if d = "" then none else some (mkBaseUrl d)
                     | none => none),
        credentials_loaded := true } := by
  subst hi
  rw [executeGetRequest_state, if_neg (by simp [initState]),
    (loadCredentials_ok_char creds initState rfl).2.1]
  rfl

theorem exec_fresh_base_url_missing (integ : Option CredFetch)
    (baseH : List (String × String)) (http : HttpBehavior) (endpoint : String)
    (params : Option (List (String × PyVal))) (creds : List (String × String))
    (hi : integ = some (CredFetch.ok creds))
    (hd : pyTruthy (alookup creds "GHOST_ADMIN_DOMAIN") = false) :
    (executeGetRequest integ baseH http endpoint params initState).state.base_url
      = none := by
  rw [exec_fresh_state_after integ baseH http endpoint params creds hi]
  cases hA : alookup creds "GHOST_ADMIN_DOMAIN" with
  | none => simp [hA]
  | some d =>
      rw [hA] at hd
      simp only [pyTruthy, bne_eq_false_iff_eq] at hd
      simp [hA, hd]

theorem exec_fresh_api_key_eq (integ : Option CredFetch)
    (baseH : List (String × String)) (http : HttpBehavior) (endpoint : String)
    (params : Option (List (String × PyVal))) (creds : List (String × String))
    (hi : integ = some (CredFetch.ok creds)) :
    (executeGetRequest integ baseH http endpoint params initState).state.api_key
      = alookup creds "GHOST_CONTENT_API_KEY" := by
  rw [exec_fresh_state_after integ baseH http endpoint params creds hi]

theorem exec_loaded_no_base_url (integ : Option CredFetch)
    (baseH : List (String × String)) (http : HttpBehavior) (endpoint : String)
    (params : Option (List (String × PyVal))) (s : AppState)
    (h1 : s.credentials_loaded = true) (h2 : pyTruthy s.base_url = false) :
    (executeGetRequest integ baseH http endpoint params s).result =
      Except.ok (GhostResult.str baseUrlMsg) := by
  unfold executeGetRequest
  rw [if_pos h1]
  unfold afterLoad
  rw [if_neg (by simp), if_pos h2]

theorem exec_loaded_key_missing (integ : Option CredFetch)
    (baseH : List (String × String)) (http : HttpBehavior) (endpoint : String)
    (params : Option (List (String × PyVal))) (s : AppState)
    (h1 : s.credentials_loaded = true) (h2 : pyTruthy s.base_url = true)
    (h3 : pyTruthy s.api_key = false) :
    (executeGetRequest integ baseH http endpoint params s).result =
      Except.ok (GhostResult.str ("Configuration error: " ++ keyMissingMsg)) := by
  unfold executeGetRequest
  rw [if_pos h1]
  unfold afterLoad
  rw [if_neg (by simp), if_neg (by simp [h2])]
  rw [prepareParams_falsy _ _ h3]
  rfl

theorem exec_ok_creds_loaded (integ : Option CredFetch)
    (baseH : List (String × String)) (http : HttpBehavior) (endpoint : String)
    (params : Option (List (String × PyVal))) (s : AppState)
    (creds : List (String × String)) (hi : integ = some (CredFetch.ok creds)) :
    (executeGetRequest integ baseH http endpoint params s).state.credentials_loaded
      = true := by
  rw [executeGetRequest_state]
  by_cases h : s.credentials_loaded
  · simp [h]
  · have hb : s.credentials_loaded = false := by simpa using h
    rw [if_neg (by simp [hb])]
    subst hi
    rw [(loadCredentials_ok_char creds s hb).2.1]

theorem exec_loaded_no_fetch (integ : Option CredFetch)
    (baseH : List (String × String)) (http : HttpBehavior) (endpoint : String)
    (params : Option (List (String × PyVal))) (s : AppState)
    (h : s.credentials_loaded = true) :
    (executeGetRequest integ baseH http endpoint params s).fetched = false := by
  rw [executeGetRequest_fetched]
  simp [h]

theorem head_dropWhile_not {p : Char → Bool} :
    ∀ (l : List Char) (c : Char), (l.dropWhile p).head? = some c → p c = false := by
  intro l
  induction l with
  | nil => intro c hc; cases hc
  | cons a t ih =>
      intro c hc
      by_cases hp : p a = true
      · rw [List.dropWhile_cons, if_pos hp] at hc
        exact ih c hc
      · rw [List.dropWhile_cons, if_neg hp] at hc
        cases hc
        simpa using hp

theorem rstripSlash_no_trailing (d : String) : lastIsSlash (rstripSlash d) = false := by
  unfold lastIsSlash rstripSlash
  rw [show (String.mk ((d.data.reverse.dropWhile (fun c => c == '/')).reverse)).data
      = (d.data.reverse.dropWhile (fun c => c == '/')).reverse from rfl]
  rw [List.getLast?_reverse]
  cases hh : (d.data.reverse.dropWhile (fun c => c == '/')).head? with
  | none => rfl
  | some c =>
      have hc := head_dropWhile_not _ c hh
      simpa using hc

/-! ### The claims -/

/-- C1: for every operation of the client's tool set, every environment
(credential-store behaviour, server behaviour) and every instance state,
the call never lets an exception escape (`result` is always `Except.ok`);
it yields the parsed JSON body exactly when the server answered 2xx with
that body, and in every other case — missing credentials, 4xx/5xx status,
network error, any other unexpected error — it yields a string result. -/
theorem c1_no_exception_every_failure_is_string (t : ToolCall) (env : OpEnv)
    (s : AppState) :
    (∃ body, (runTool t env s).result = Except.ok (GhostResult.json body) ∧
        env.http = HttpBehavior.ok body) ∨
    (∃ msg, (runTool t env s).result = Except.ok (GhostResult.str msg)) := by
  cases t <;>
    exact afterLoad_dichotomy env.baseHeaders env.http _ _ _

/-- C2: whenever a tool call hands a request to the HTTP client, the
request's query parameters bind `"key"` to the client's resolved content
API key. -/
theorem c2_key_in_every_request (t : ToolCall) (env : OpEnv) (s : AppState)
    (req : HttpRequest) (h : (runTool t env s).request = some req) :
    ∃ k, (runTool t env s).state.api_key = some k ∧
      alookup req.params "key" = some k := by
  cases t <;> exact exec_key_param _ _ _ _ _ _ _ (by simp) h

/-- Witness for C2: a fresh client with a configured store issues the
`settings/` request with `key=K`. -/
theorem c2_key_in_every_request_witness :
    ∃ k, (runTool ToolCall.browse_settings envW initState).state.api_key = some k ∧
      alookup reqW.params "key" = some k :=
  c2_key_in_every_request ToolCall.browse_settings envW initState reqW rfl

/-- C3: parameter normalization drops `None`-valued keys, joins list
values with commas, lowercases booleans, stringifies the other values and
injects the API key under `"key"` (for parameter mappings that, like every
call site's, have distinct keys none of which is `"key"`). -/
theorem c3_parameter_normalization (apiKey : String)
    (custom : List (String × PyVal)) (hks : apiKey ≠ "")
    (hnd : (custom.map Prod.fst).Nodup) (hkey : "key" ∉ custom.map Prod.fst) :
    ∃ out, prepareParams (some apiKey) (some custom) = Except.ok out ∧
      alookup out "key" = some apiKey ∧
      (∀ k, (k, PyVal.none) ∈ custom → alookup out k = none) ∧
      (∀ k xs, (k, PyVal.list xs) ∈ custom →
        alookup out k = some (String.intercalate "," xs)) ∧
      (∀ k b, (k, PyVal.bool b) ∈ custom →
        alookup out k = some (if b then "true" else "false")) ∧
      (∀ k n, (k, PyVal.int n) ∈ custom → alookup out k = some (toString n)) ∧
      (∀ k v, (k, PyVal.str v) ∈ custom → alookup out k = some v) := by
  refine ⟨_, prepareParams_ok apiKey (some custom) hks, ?_, ?_, ?_, ?_, ?_, ?_⟩
  · simp only [Option.getD_some]
    rw [foldl_ppStep_alookup_notMem _ _ hkey]
    simp [alookup]
  · intro k hmem
    have hk : k ≠ "key" := fun he => hkey (he ▸ List.mem_map_of_mem Prod.fst hmem)
    simp only [Option.getD_some]
    rw [foldl_ppStep_alookup_none_mem _ _ hmem hnd]
    simp [alookup, Ne.symm hk]
  · intro k xs hmem
    simpa [normalizeVal] using
      foldl_ppStep_alookup_mem _ _ _ hmem (fun he => PyVal.noConfusion he) hnd
        [("key", apiKey)]
  · intro k b hmem
    simpa [normalizeVal] using
      foldl_ppStep_alookup_mem _ _ _ hmem (fun he => PyVal.noConfusion he) hnd
        [("key", apiKey)]
  · intro k n hmem
    simpa [normalizeVal, pyStr] using
      foldl_ppStep_alookup_mem _ _ _ hmem (fun he => PyVal.noConfusion he) hnd
        [("key", apiKey)]
  · intro k v hmem
    simpa [normalizeVal, pyStr] using
      foldl_ppStep_alookup_mem _ _ _ hmem (fun he => PyVal.noConfusion he) hnd
        [("key", apiKey)]

/-- Witness for C3 at a concrete mapping exercising every value shape. -/
theorem c3_parameter_normalization_witness :
    ∃ out, prepareParams (some "K")
        (some [("limit", PyVal.int 5), ("include", PyVal.list ["a", "b"]),
               ("flag", PyVal.bool true), ("order", PyVal.str "-x"),
               ("fields", PyVal.none)]) = Except.ok out ∧
      alookup out "key" = some "K" ∧
      (∀ k, (k, PyVal.none) ∈
          [("limit", PyVal.int 5), ("include", PyVal.list ["a", "b"]),
           ("flag", PyVal.bool true), ("order", PyVal.str "-x"),
           ("fields", PyVal.none)] → alookup out k = none) ∧
      (∀ k xs, (k, PyVal.list xs) ∈
          [("limit", PyVal.int 5), ("include", PyVal.list ["a", "b"]),
           ("flag", PyVal.bool true), ("order", PyVal.str "-x"),
           ("fields", PyVal.none)] →
        alookup out k = some (String.intercalate "," xs)) ∧
      (∀ k b, (k, PyVal.bool b) ∈
          [("limit", PyVal.int 5), ("include", PyVal.list ["a", "b"]),
           ("flag", PyVal.bool true), ("order", PyVal.str "-x"),
           ("fields", PyVal.none)] →
        alookup out k = some (if b then "true" else "false")) ∧
      (∀ k n, (k, PyVal.int n) ∈
          [("limit", PyVal.int 5), ("include", PyVal.list ["a", "b"]),
           ("flag", PyVal.bool true), ("order", PyVal.str "-x"),
           ("fields", PyVal.none)] → alookup out k = some (toString n)) ∧
      (∀ k v, (k, PyVal.str v) ∈
          [("limit", PyVal.int 5), ("include", PyVal.list ["a", "b"]),
           ("flag", PyVal.bool true), ("order", PyVal.str "-x"),
           ("fields", PyVal.none)] → alookup out k = some v) :=
  c3_parameter_normalization "K"
    [("limit", PyVal.int 5), ("include", PyVal.list ["a", "b"]),
     ("flag", PyVal.bool true), ("order", PyVal.str "-x"),
     ("fields", PyVal.none)] (by decide) (by decide) (by decide)

/-- Counterexample for C4: an empty list is not omitted — `_prepare_params`
keeps the key and binds it to the empty string (`",".join([]) == ""`). -/
theorem c4_empty_list_counterexample :
    prepareParams (some "K") (some [("include", PyVal.list [])]) =
      Except.ok [("key", "K"), ("include", "")] ∧
    alookup [("key", "K"), ("include", "")] "include" = some "" :=
  ⟨rfl, rfl⟩

/-- C4 as amended: list values are serialized by joining elements with
`","`; a parameter's key is omitted when its value is `None`, while an
empty list keeps the key and maps it to the empty string. -/
theorem c4_list_serialization_amended (apiKey : String)
    (custom : List (String × PyVal)) (hks : apiKey ≠ "")
    (hnd : (custom.map Prod.fst).Nodup) (hkey : "key" ∉ custom.map Prod.fst) :
    ∃ out, prepareParams (some apiKey) (some custom) = Except.ok out ∧
      (∀ k xs, (k, PyVal.list xs) ∈ custom →
        alookup out k = some (String.intercalate "," xs)) ∧
      (∀ k, (k, PyVal.none) ∈ custom → alookup out k = none) ∧
      (∀ k, (k, PyVal.list []) ∈ custom → alookup out k = some "") := by
  refine ⟨_, prepareParams_ok apiKey (some custom) hks, ?_, ?_, ?_⟩
  · intro k xs hmem
    simpa [normalizeVal] using
      foldl_ppStep_alookup_mem _ _ _ hmem (fun he => PyVal.noConfusion he) hnd
        [("key", apiKey)]
  · intro k hmem
    have hk : k ≠ "key" := fun he => hkey (he ▸ List.mem_map_of_mem Prod.fst hmem)
    simp only [Option.getD_some]
    rw [foldl_ppStep_alookup_none_mem _ _ hmem hnd]
    simp [alookup, Ne.symm hk]
  · intro k hmem
    simpa [normalizeVal] using
      foldl_ppStep_alookup_mem _ _ _ hmem (fun he => PyVal.noConfusion he) hnd
        [("key", apiKey)]

/-- Witness for the amended C4 at a concrete mapping with an empty list, a
`None` and a non-empty list. -/
theorem c4_list_serialization_amended_witness :
    ∃ out, prepareParams (some "K")
        (some [("include", PyVal.list []), ("fields", PyVal.none),
               ("formats", PyVal.list ["html", "plaintext"])]) = Except.ok out ∧
      (∀ k xs, (k, PyVal.list xs) ∈
          [("include", PyVal.list []), ("fields", PyVal.none),
           ("formats", PyVal.list ["html", "plaintext"])] →
        alookup out k = some (String.intercalate "," xs)) ∧
      (∀ k, (k, PyVal.none) ∈
          [("include", PyVal.list []), ("fields", PyVal.none),
           ("formats", PyVal.list ["html", "plaintext"])] →
        alookup out k = none) ∧
      (∀ k, (k, PyVal.list []) ∈
          [("include", PyVal.list []), ("fields", PyVal.none),
           ("formats", PyVal.list ["html", "plaintext"])] →
        alookup out k = some "") :=
  c4_list_serialization_amended "K"
    [("include", PyVal.list []), ("fields", PyVal.none),
     ("formats", PyVal.list ["html", "plaintext"])] (by decide) (by decide) (by decide)

/-- Counterexample for C5: with a store that lacks `GHOST_ADMIN_DOMAIN`,
the very first call on a fresh instance returns the generic
credential-failure string, which does not contain the substring
`"domain"`. -/
theorem c5_first_call_counterexample :
    (runTool ToolCall.browse_settings envNoDomain initState).result =
      Except.ok (GhostResult.str credFailMsg) ∧
    containsSub credFailMsg "domain" = false :=
  ⟨rfl, by decide⟩

/-- C5 as amended: when the store's credentials lack a (truthy)
`GHOST_ADMIN_DOMAIN`, every operation call returns an error string without
raising — the first call on a fresh instance returns the generic
credential-failure message, the instance is then marked loaded with no
base URL, and every subsequent call returns the base-URL error message,
which contains `"DOMAIN"` (the substring `"domain"` up to case). -/
theorem c5_missing_domain_amended (t t2 : ToolCall) (env : OpEnv)
    (creds : List (String × String)) (s2 : AppState)
    (hi : env.integration = some (CredFetch.ok creds))
    (hd : pyTruthy (alookup creds "GHOST_ADMIN_DOMAIN") = false)
    (h1 : s2.credentials_loaded = true) (h2 : pyTruthy s2.base_url = false) :
    (runTool t env initState).result = Except.ok (GhostResult.str credFailMsg) ∧
    (runTool t env initState).state.credentials_loaded = true ∧
    (runTool t env initState).state.base_url = none ∧
    (runTool t2 env s2).result = Except.ok (GhostResult.str baseUrlMsg) ∧
    containsSub baseUrlMsg "DOMAIN" = true := by
  have hfail : (pyTruthy (alookup creds "GHOST_ADMIN_DOMAIN") &&
      pyTruthy (alookup creds "GHOST_CONTENT_API_KEY")) = false := by
    rw [hd]; rfl
  refine ⟨?_, ?_, ?_, ?_, by decide⟩
  · cases t <;>
      exact exec_fresh_creds_fail env.integration env.baseHeaders env.http _ _
        creds hi hfail
  · cases t <;>
      exact exec_ok_creds_loaded env.integration env.baseHeaders env.http _ _
        initState creds hi
  · cases t <;>
      exact exec_fresh_base_url_missing env.integration env.baseHeaders env.http _ _
        creds hi hd
  · cases t2 <;>
      exact exec_loaded_no_base_url env.integration env.baseHeaders env.http _ _
        s2 h1 h2

/-- Witness for the amended C5 with a concrete store lacking the domain:
a first call on a fresh instance and a second call on the resulting
state. -/
theorem c5_missing_domain_amended_witness :
    (runTool ToolCall.browse_settings envNoDomain initState).result =
      Except.ok (GhostResult.str credFailMsg) ∧
    (runTool ToolCall.browse_settings envNoDomain initState).state.credentials_loaded
      = true ∧
    (runTool ToolCall.browse_settings envNoDomain initState).state.base_url = none ∧
    (runTool (ToolCall.read_post_by_id "x" none none none) envNoDomain
        stateNoDomain).result = Except.ok (GhostResult.str baseUrlMsg) ∧
    containsSub baseUrlMsg "DOMAIN" = true :=
  c5_missing_domain_amended ToolCall.browse_settings
    (ToolCall.read_post_by_id "x" none none none) envNoDomain credsNoDomain
    stateNoDomain rfl rfl rfl rfl

/-- Counterexample for C6: with a store that lacks
`GHOST_CONTENT_API_KEY`, the very first call on a fresh instance returns
the generic credential-failure string, which does not contain the
substring `"key"`. -/
theorem c6_first_call_counterexample :
    (runTool ToolCall.browse_settings envNoKey initState).result =
      Except.ok (GhostResult.str credFailMsg) ∧
    containsSub credFailMsg "key" = false :=
  ⟨rfl, by decide⟩

/-- C6 as amended: when the store's credentials lack a (truthy)
`GHOST_CONTENT_API_KEY`, every operation call returns an error string
without raising — the first call on a fresh instance returns the generic
credential-failure message and caches the missing key, and every
subsequent call made while the base URL is configured (the domain was
present) returns the configuration-error message, which contains
`"key"`. -/
theorem c6_missing_key_amended (t t2 : ToolCall) (env : OpEnv)
    (creds : List (String × String)) (s2 : AppState)
    (hi : env.integration = some (CredFetch.ok creds))
    (hk : pyTruthy (alookup creds "GHOST_CONTENT_API_KEY") = false)
    (h1 : s2.credentials_loaded = true) (h2 : pyTruthy s2.base_url = true)
    (h3 : pyTruthy s2.api_key = false) :
    (runTool t env initState).result = Except.ok (GhostResult.str credFailMsg) ∧
    (runTool t env initState).state.credentials_loaded = true ∧
    (runTool t env initState).state.api_key = alookup creds "GHOST_CONTENT_API_KEY" ∧
    (runTool t2 env s2).result =
      Except.ok (GhostResult.str ("Configuration error: " ++ keyMissingMsg)) ∧
    containsSub ("Configuration error: " ++ keyMissingMsg) "key" = true := by
  have hfail : (pyTruthy (alookup creds "GHOST_ADMIN_DOMAIN") &&
      pyTruthy (alookup creds "GHOST_CONTENT_API_KEY")) = false := by
    rw [hk]; exact Bool.and_false _
  refine ⟨?_, ?_, ?_, ?_, by decide⟩
  · cases t <;>
      exact exec_fresh_creds_fail env.integration env.baseHeaders env.http _ _
        creds hi hfail
  · cases t <;>
      exact exec_ok_creds_loaded env.integration env.baseHeaders env.http _ _
        initState creds hi
  · cases t <;>
      exact exec_fresh_api_key_eq env.integration env.baseHeaders env.http _ _
        creds hi
  · cases t2 <;>
      exact exec_loaded_key_missing env.integration env.baseHeaders env.http _ _
        s2 h1 h2 h3

/-- Witness for the amended C6 with a concrete store lacking the key:
a first call on a fresh instance and a second call on the resulting
state. -/
theorem c6_missing_key_amended_witness :
    (runTool ToolCall.browse_settings envNoKey initState).result =
      Except.ok (GhostResult.str credFailMsg) ∧
    (runTool ToolCall.browse_settings envNoKey initState).state.credentials_loaded
      = true ∧
    (runTool ToolCall.browse_settings envNoKey initState).state.api_key =
      alookup credsNoKey "GHOST_CONTENT_API_KEY" ∧
    (runTool (ToolCall.browse_posts none none none none none none none) envNoKey
        stateNoKey).result =
      Except.ok (GhostResult.str ("Configuration error: " ++ keyMissingMsg)) ∧
    containsSub ("Configuration error: " ++ keyMissingMsg) "key" = true :=
  c6_missing_key_amended ToolCall.browse_settings
    (ToolCall.browse_posts none none none none none none none) envNoKey
    credsNoKey stateNoKey rfl rfl rfl rfl rfl

/-- Counterexample for C7: when `get_credentials()` raises, the loaded
flag is not cached, so the second call fetches from the store again. -/
theorem c7_refetch_counterexample :
    (runTool ToolCall.browse_settings envRaises initState).fetched = true ∧
    (runTool ToolCall.browse_settings envRaises
        (runTool ToolCall.browse_settings envRaises initState).state).fetched
      = true :=
  ⟨rfl, rfl⟩

/-- C7 as amended: when the first call's credential fetch completes (the
store returns a mapping — whether or not it holds the required keys), the
instance is marked loaded and no subsequent call invokes
`get_credentials()` again; but when the fetch itself raises, the flag is
not set and later calls retry the fetch. -/
theorem c7_caching_after_completed_fetch (t t2 : ToolCall) (env : OpEnv)
    (creds : List (String × String)) (s : AppState)
    (hi : env.integration = some (CredFetch.ok creds)) :
    (runTool t env s).state.credentials_loaded = true ∧
    (runTool t2 env (runTool t env s).state).fetched = false := by
  have h1 : (runTool t env s).state.credentials_loaded = true := by
    cases t <;>
      exact exec_ok_creds_loaded env.integration env.baseHeaders env.http _ _ s
        creds hi
  refine ⟨h1, ?_⟩
  cases t2 <;>
    exact exec_loaded_no_fetch env.integration env.baseHeaders env.http _ _ _ h1

/-- Witness for the amended C7: a fresh client against a store missing the
domain caches the failed resolution and does not fetch again. -/
theorem c7_caching_after_completed_fetch_witness :
    (runTool ToolCall.browse_settings envNoDomain initState).state.credentials_loaded
      = true ∧
    (runTool (ToolCall.browse_tiers none none none none none none) envNoDomain
        (runTool ToolCall.browse_settings envNoDomain initState).state).fetched
      = false :=
  c7_caching_after_completed_fetch ToolCall.browse_settings
    (ToolCall.browse_tiers none none none none none none) envNoDomain
    credsNoDomain initState rfl

/-- C8: whenever a tool call hands a request to the HTTP client, the
request's headers bind `"Accept-Version"` to the instance's API version —
which, for a fresh instance, is the store's `GHOST_API_VERSION` or the
default `"v5.0"` when absent — and carry no `"Authorization"` header. -/
theorem c8_accept_version_no_authorization (t : ToolCall) (env : OpEnv)
    (s : AppState) (req : HttpRequest) (h : (runTool t env s).request = some req) :
    alookup req.headers "Accept-Version" =
      some (runTool t env s).state.api_version ∧
    alookup req.headers "Authorization" = none ∧
    (∀ creds, s = initState → env.integration = some (CredFetch.ok creds) →
      (runTool t env s).state.api_version =
        (alookup creds "GHOST_API_VERSION").getD "v5.0") := by
  refine ⟨?_, ?_, ?_⟩
  · cases t <;>
      exact (exec_headers_spec env.integration env.baseHeaders env.http _ _ s req h).1
  · cases t <;>
      exact (exec_headers_spec env.integration env.baseHeaders env.http _ _ s req h).2
  · intro creds hs hi
    subst hs
    cases t <;>
      exact exec_fresh_api_version env.integration env.baseHeaders env.http _ _
        creds hi

/-- Witness for C8: the `settings/` request of a fresh configured client
carries `Accept-Version: v5.0` and no `Authorization` header. -/
theorem c8_accept_version_no_authorization_witness :
    alookup reqW.headers "Accept-Version" =
      some (runTool ToolCall.browse_settings envW initState).state.api_version ∧
    alookup reqW.headers "Authorization" = none ∧
    (∀ creds, initState = initState →
      envW.integration = some (CredFetch.ok creds) →
      (runTool ToolCall.browse_settings envW initState).state.api_version =
        (alookup creds "GHOST_API_VERSION").getD "v5.0") :=
  c8_accept_version_no_authorization ToolCall.browse_settings envW initState reqW rfl

/-- C9: when the server answers `read_post_by_id("x")` with 404 and the
body `{"errors": [{"message": "Post not found", "type": "NotFoundError"}]}`,
the operation returns (rather than raises) a string containing both
`"Post not found"` and `"NotFoundError"`. -/
theorem c9_not_found_scenario :
    ∃ msg, (runTool (ToolCall.read_post_by_id "x" none none none) envC9
        initState).result = Except.ok (GhostResult.str msg) ∧
      containsSub msg "Post not found" = true ∧
      containsSub msg "NotFoundError" = true :=
  ⟨"Error fetching posts/x/: 404 - Ghost API Errors: Post not found (type: NotFoundError)",
    rfl, by decide, by decide⟩

/-- C10: for every truthy admin domain provided by the store, credential
loading strips all trailing `'/'` characters before building the base
URL, which is exactly `"https://" ++ stripped ++ "/ghost/api/content/"`,
and the stripped domain never ends in `'/'`, so no doubled slash appears
between the domain and the path. -/
theorem c10_base_url_strips_trailing_slashes (creds : List (String × String))
    (d : String) (s : AppState) (h : s.credentials_loaded = false)
    (hd : alookup creds "GHOST_ADMIN_DOMAIN" = some d) (hne : d ≠ "") :
    (loadCredentials (some (CredFetch.ok creds)) s).state.base_url =
      some ("https://" ++ rstripSlash d ++ "/ghost/api/content/") ∧
    lastIsSlash (rstripSlash d) = false := by
  constructor
  · rw [(loadCredentials_ok_char creds s h).2.1]
    simp [hd, hne, mkBaseUrl]
  · exact rstripSlash_no_trailing d

/-- Witness for C10 at a domain with two trailing slashes. -/
theorem c10_base_url_strips_trailing_slashes_witness :
    (loadCredentials (some (CredFetch.ok
        [("GHOST_ADMIN_DOMAIN", "example.com//"), ("GHOST_CONTENT_API_KEY", "K")]))
        initState).state.base_url =
      some ("https://" ++ rstripSlash "example.com//" ++ "/ghost/api/content/") ∧
    lastIsSlash (rstripSlash "example.com//") = false :=
  c10_base_url_strips_trailing_slashes
    [("GHOST_ADMIN_DOMAIN", "example.com//"), ("GHOST_CONTENT_API_KEY", "K")]
    "example.com//" initState rfl rfl (by decide)

end GhostContent
